import Mathlib

/-!
Shallow embedding of `ndscan/experiment/result_channels.py`: result sinks
(`SingleUseSink`, `LastValueSink`, `ArraySink`, `AppendingDatasetSink`,
`ScalarDatasetSink`), the `ResultChannel` hierarchy (`NumericChannel`,
`FloatChannel`, `IntChannel`, `OpaqueChannel`, `SubscanChannel`), and the
external collaborators they call (the ARTIQ dataset store, the unit table,
and the Python `float`/`int` builtins), with theorems settling the spec
claims about this module.
-/

namespace ResultChannels

/-- Python values flowing through channels and sinks (Python `None` is the
`none` constructor). -/
inductive PyVal where
  | none
  | int (n : Int)
  | float (q : ℚ)
  | str (s : String)
deriving DecidableEq, Repr

/-- Python exceptions raised by this module and its collaborators. -/
inductive PyError where
  | valueError (msg : String)
  | typeError (msg : String)
  | runtimeError (msg : String)
  | keyError (msg : String)
  | attributeError (msg : String)
  | assertionError
deriving DecidableEq, Repr

/-- A value stored in the ARTIQ dataset store: the scalar-dataset sink stores
the pushed value itself, the appending-dataset sink stores a list. -/
inductive DsVal where
  | val (v : PyVal)
  | arr (xs : List PyVal)
deriving DecidableEq, Repr

/-- The external ARTIQ dataset store, modelled as an association list from
dataset keys to values; `set_dataset` shadows the previous entry. -/
abbrev Datasets := List (String × DsVal)

/-- Collaborator `set_dataset(key, value, broadcast)`: (over)write the entry
at `key`.  The `broadcast` flag only controls live propagation to observers
and has no effect on the stored value. -/
def setDataset (ds : Datasets) (key : String) (v : DsVal) : Datasets :=
  (key, v) :: ds

/-- Collaborator `get_dataset(key)`: read the entry at `key`, a `KeyError`
if absent. -/
def getDataset (ds : Datasets) (key : String) : Except PyError DsVal :=
  match List.lookup key ds with
  | Option.some e => Except.ok e
  | Option.none => Except.error (PyError.keyError key)

/-- Collaborator `append_to_dataset(key, value)`: append `v` to the list
stored at `key`. -/
def appendToDataset (ds : Datasets) (key : String) (v : PyVal) :
    Except PyError Datasets :=
  match List.lookup key ds with
  | Option.some (DsVal.arr xs) => Except.ok (setDataset ds key (DsVal.arr (xs ++ [v])))
  | Option.some (DsVal.val _) => Except.error (PyError.typeError "dataset entry is not a list")
  | Option.none => Except.error (PyError.keyError key)

/-- `SingleUseSink`: sink that allows only one value to be pushed (before
being cleared).  `_value` starts as Python `None`. -/
structure SingleUseSink where
  _is_set : Bool
  _value : PyVal
deriving DecidableEq, Repr

/-- `SingleUseSink.__init__`. -/
def SingleUseSink.new : SingleUseSink :=
  { _is_set := false, _value := PyVal.none }

/-- `SingleUseSink.push`. -/
def SingleUseSink.push (s : SingleUseSink) (value : PyVal) :
    Except PyError SingleUseSink :=
  if s._is_set then Except.error (PyError.runtimeError "Result channel already pushed to")
  else Except.ok { _is_set := true, _value := value }

/-- `SingleUseSink.is_set`. -/
def SingleUseSink.is_set (s : SingleUseSink) : Bool := s._is_set

/-- `SingleUseSink.get`. -/
def SingleUseSink.get (s : SingleUseSink) : Except PyError PyVal :=
  if !s._is_set then Except.error (PyError.valueError "No value pushed to sink")
  else Except.ok s._value

/-- `SingleUseSink.get_last` (alias of `get`). -/
def SingleUseSink.get_last (s : SingleUseSink) : Except PyError PyVal :=
  s.get

/-- `SingleUseSink.reset`. -/
def SingleUseSink.reset (_s : SingleUseSink) : SingleUseSink :=
  { _is_set := false, _value := PyVal.none }

/-- `LastValueSink`: retains only the last-pushed value; `value` starts as
Python `None`. -/
structure LastValueSink where
  value : PyVal
deriving DecidableEq, Repr

/-- `LastValueSink.__init__`. -/
def LastValueSink.new : LastValueSink := { value := PyVal.none }

/-- `LastValueSink.push`. -/
def LastValueSink.push (_s : LastValueSink) (value : PyVal) : LastValueSink :=
  { value := value }

/-- `LastValueSink.get_last`: the last-pushed value, or `None` if none yet. -/
def LastValueSink.get_last (s : LastValueSink) : PyVal := s.value

/-- `ArraySink`: stores all pushed values in a list. -/
structure ArraySink where
  data : List PyVal
deriving DecidableEq, Repr

/-- `ArraySink.__init__`. -/
def ArraySink.new : ArraySink := { data := [] }

/-- `ArraySink.push`. -/
def ArraySink.push (s : ArraySink) (value : PyVal) : ArraySink :=
  { data := s.data ++ [value] }

/-- `ArraySink.get_all`. -/
def ArraySink.get_all (s : ArraySink) : List PyVal := s.data

/-- `ArraySink.get_last`: `self.data[-1] if self.data else None`. -/
def ArraySink.get_last (s : ArraySink) : PyVal :=
  match s.data with
  | [] => PyVal.none
  | x :: xs => (x :: xs).getLastD PyVal.none

/-- `ArraySink.clear`. -/
def ArraySink.clear (_s : ArraySink) : ArraySink := { data := [] }

/-- `AppendingDatasetSink` state: dataset key, broadcast flag, and
`last_value` (Python `None` before the first push). -/
structure AppendingDatasetSink where
  key : String
  broadcast : Bool
  last_value : PyVal
deriving DecidableEq, Repr

/-- `AppendingDatasetSink.build(key, broadcast)`. -/
def AppendingDatasetSink.build (key : String) (broadcast : Bool) :
    AppendingDatasetSink :=
  { key := key, broadcast := broadcast, last_value := PyVal.none }

/-- `AppendingDatasetSink.push`: asserts the value is not `None`; the first
push sets the dataset entry to a one-element list, later pushes append. -/
def AppendingDatasetSink.push (s : AppendingDatasetSink) (ds : Datasets)
    (value : PyVal) : Except PyError (AppendingDatasetSink × Datasets) :=
  if value = PyVal.none then Except.error PyError.assertionError
  else if s.last_value = PyVal.none then
    Except.ok ({ s with last_value := value },
      setDataset ds s.key (DsVal.arr [value]))
  else
    match appendToDataset ds s.key value with
    | Except.ok ds2 => Except.ok ({ s with last_value := value }, ds2)
    | Except.error e => Except.error e

/-- `AppendingDatasetSink.get_last`: the last pushed value (or `None`). -/
def AppendingDatasetSink.get_last (s : AppendingDatasetSink) : PyVal :=
  s.last_value

/-- `AppendingDatasetSink.get_all`: `[]` if nothing was pushed, else the
value read back from the dataset store. -/
def AppendingDatasetSink.get_all (s : AppendingDatasetSink) (ds : Datasets) :
    Except PyError DsVal :=
  if s.last_value = PyVal.none then Except.ok (DsVal.arr [])
  else getDataset ds s.key

/-- `ScalarDatasetSink` state: dataset key, broadcast flag, and the
`has_pushed` flag. -/
structure ScalarDatasetSink where
  key : String
  broadcast : Bool
  has_pushed : Bool
deriving DecidableEq, Repr

/-- `ScalarDatasetSink.build(key, broadcast)`. -/
def ScalarDatasetSink.build (key : String) (broadcast : Bool) :
    ScalarDatasetSink :=
  { key := key, broadcast := broadcast, has_pushed := false }

/-- `ScalarDatasetSink.push`: overwrite the dataset entry, set `has_pushed`. -/
def ScalarDatasetSink.push (s : ScalarDatasetSink) (ds : Datasets)
    (value : PyVal) : ScalarDatasetSink × Datasets :=
  ({ s with has_pushed := true }, setDataset ds s.key (DsVal.val value))

/-- `ScalarDatasetSink.get_last`: the dataset entry if pushed, else `None`. -/
def ScalarDatasetSink.get_last (s : ScalarDatasetSink) (ds : Datasets) :
    Except PyError DsVal :=
  if s.has_pushed then getDataset ds s.key else Except.ok (DsVal.val PyVal.none)

/-- The value of a non-empty all-digit character sequence, part of the model
of Python's numeral parsing. -/
def decDigitsVal? (cs : List Char) : Option Nat :=
  if cs = [] then Option.none
  else if cs.all Char.isDigit then
    Option.some (cs.foldl (fun a c => a * 10 + (c.toNat - 48)) 0)
  else Option.none

/-- Part of the model of Python's `float(str)` builtin: parse an unsigned
decimal numeral (digits, optionally a dot and fractional digits). -/
def parseDecCharsUnsigned (cs : List Char) : Option ℚ :=
  match cs.span (fun c => c ≠ '.') with
  | (intPart, []) => (decDigitsVal? intPart).map (fun n => (n : ℚ))
  | (intPart, _dot :: fracPart) =>
      match decDigitsVal? intPart, decDigitsVal? fracPart with
      | Option.some i, Option.some f =>
          Option.some ((i : ℚ) + (f : ℚ) / ((10 : ℚ) ^ fracPart.length))
      | _, _ => Option.none

/-- Model of the numeral parsing done by Python's `float(str)` builtin
(an optional sign followed by a decimal numeral). -/
def parseDecimalString (s : String) : Option ℚ :=
  match s.toList with
  | '-' :: rest => (parseDecCharsUnsigned rest).map Neg.neg
  | '+' :: rest => parseDecCharsUnsigned rest
  | cs => parseDecCharsUnsigned cs

/-- Model of the numeral parsing done by Python's `int(str)` builtin
(an optional sign followed by digits). -/
def parseIntString (s : String) : Option Int :=
  match s.toList with
  | '-' :: rest => (decDigitsVal? rest).map (fun n => -(n : Int))
  | '+' :: rest => (decDigitsVal? rest).map (fun n => (n : Int))
  | cs => (decDigitsVal? cs).map (fun n => (n : Int))

/-- Python's `int(float)` truncates toward zero. -/
def pyTrunc (q : ℚ) : Int :=
  q.num.tdiv q.den

/-- Model of Python's `float(value)` builtin: numbers convert to their
floating-point value, numeric strings parse, everything else is a
`TypeError`/`ValueError`. -/
def pyFloat (v : PyVal) : Except PyError PyVal :=
  match v with
  | PyVal.int n => Except.ok (PyVal.float (n : ℚ))
  | PyVal.float q => Except.ok (PyVal.float q)
  | PyVal.str s =>
      match parseDecimalString s with
      | Option.some q => Except.ok (PyVal.float q)
      | Option.none =>
          Except.error (PyError.valueError "could not convert string to float")
  | PyVal.none => Except.error (PyError.typeError "float() argument must be a number")

/-- Model of Python's `int(value)` builtin: ints pass through, floats
truncate toward zero, integer-numeral strings parse, everything else is a
`TypeError`/`ValueError`. -/
def pyInt (v : PyVal) : Except PyError PyVal :=
  match v with
  | PyVal.int n => Except.ok (PyVal.int n)
  | PyVal.float q => Except.ok (PyVal.int (pyTrunc q))
  | PyVal.str s =>
      match parseIntString s with
      | Option.some n => Except.ok (PyVal.int n)
      | Option.none =>
          Except.error (PyError.valueError "invalid literal for int")
  | PyVal.none => Except.error (PyError.typeError "int() argument must be a number")

/-- Modelled from the spec: `dump_json` (imported from
`ndscan.experiment.utils`, which is not among the provided sources)
serialises the pushed value to its JSON string form. -/
def dump_json : PyVal → String
  | PyVal.none => "null"
  | PyVal.int n => toString n
  | PyVal.float q => toString q
  | PyVal.str s => "\"" ++ s ++ "\""

/-- The external unit table (`artiq.language.units`): unit name to scale
factor; `getattr` on the module is an association-list lookup. -/
abbrev UnitTable := List (String × ℚ)

/-- A representative fragment of the ARTIQ unit table (`ns`, `us`, `ms`,
`s`, `Hz`, `kHz`, `MHz`, `GHz`). -/
def artiqUnits : UnitTable :=
  [("ns", 1 / 1000000000), ("us", 1 / 1000000), ("ms", 1 / 1000), ("s", 1),
   ("Hz", 1), ("kHz", 1000), ("MHz", 1000000), ("GHz", 1000000000)]

/-- The sink attached to a channel, as a sum over the sink variants. -/
inductive Sink where
  | singleUse (s : SingleUseSink)
  | lastValue (s : LastValueSink)
  | array (s : ArraySink)
  | appendingDataset (s : AppendingDatasetSink)
  | scalarDataset (s : ScalarDatasetSink)
deriving DecidableEq, Repr

/-- Dynamic dispatch of `ResultSink.push` over the sink variants; errors are
returned alongside the (unchanged, for the failing variants) state, matching
Python exception propagation. -/
def Sink.push (s : Sink) (ds : Datasets) (value : PyVal) :
    (Sink × Datasets) × Option PyError :=
  match s with
  | Sink.singleUse t =>
      match t.push value with
      | Except.ok t2 => ((Sink.singleUse t2, ds), Option.none)
      | Except.error e => ((Sink.singleUse t, ds), Option.some e)
  | Sink.lastValue t => ((Sink.lastValue (t.push value), ds), Option.none)
  | Sink.array t => ((Sink.array (t.push value), ds), Option.none)
  | Sink.appendingDataset t =>
      match t.push ds value with
      | Except.ok (t2, ds2) => ((Sink.appendingDataset t2, ds2), Option.none)
      | Except.error e => ((Sink.appendingDataset t, ds), Option.some e)
  | Sink.scalarDataset t =>
      ((Sink.scalarDataset (t.push ds value).1, (t.push ds value).2), Option.none)

/-- The attributes set by `ResultChannel.__init__`. -/
structure ResultChannelData where
  path : String
  description : String
  display_hints : List (String × PyVal)
  save_by_default : Bool
  sink : Option Sink
deriving DecidableEq, Repr

/-- The extra attributes set by `NumericChannel.__init__` (`unit` is an
`Option` because the code guards `describe` with `unit is not None`). -/
structure NumericData where
  min : Option PyVal
  max : Option PyVal
  unit : Option String
  scale : PyVal
  _value_pushed : Bool
  _last_value : PyVal
deriving DecidableEq, Repr

/-- The concrete channel classes. -/
inductive Channel where
  | floatChannel (base : ResultChannelData) (num : NumericData)
  | intChannel (base : ResultChannelData) (num : NumericData)
  | opaqueChannel (base : ResultChannelData)
  | subscanChannel (base : ResultChannelData)
deriving DecidableEq, Repr

/-- The `ResultChannel` attributes of a channel. -/
def Channel.base : Channel → ResultChannelData
  | Channel.floatChannel b _ => b
  | Channel.intChannel b _ => b
  | Channel.opaqueChannel b => b
  | Channel.subscanChannel b => b

/-- Replace the `ResultChannel` attributes of a channel. -/
def Channel.withBase : Channel → ResultChannelData → Channel
  | Channel.floatChannel _ n, b => Channel.floatChannel b n
  | Channel.intChannel _ n, b => Channel.intChannel b n
  | Channel.opaqueChannel _, b => Channel.opaqueChannel b
  | Channel.subscanChannel _, b => Channel.subscanChannel b

/-- The `NumericChannel` attributes of a channel, when it is numeric. -/
def Channel.numData : Channel → Option NumericData
  | Channel.floatChannel _ n => Option.some n
  | Channel.intChannel _ n => Option.some n
  | Channel.opaqueChannel _ => Option.none
  | Channel.subscanChannel _ => Option.none

/-- Virtual `_get_type_string`. -/
def Channel._get_type_string : Channel → String
  | Channel.floatChannel _ _ => "float"
  | Channel.intChannel _ _ => "int"
  | Channel.opaqueChannel _ => "opaque"
  | Channel.subscanChannel _ => "subscan"

/-- Virtual `_coerce_to_type`: `float(value)` / `int(value)` for the numeric
channels, identity for `OpaqueChannel`, `dump_json(value)` for
`SubscanChannel`. -/
def Channel._coerce_to_type : Channel → PyVal → Except PyError PyVal
  | Channel.floatChannel _ _, v => pyFloat v
  | Channel.intChannel _ _, v => pyInt v
  | Channel.opaqueChannel _, v => Except.ok v
  | Channel.subscanChannel _, v => Except.ok (PyVal.str (dump_json v))

/-- `ResultChannel.is_muted`: whether a sink is attached. -/
def Channel.is_muted (ch : Channel) : Bool :=
  ch.base.sink.isSome

/-- `ResultChannel.set_sink`. -/
def Channel.set_sink (ch : Channel) (s : Sink) : Channel :=
  ch.withBase { ch.base with sink := Option.some s }

/-- `ResultChannel.push`: coerce, then forward to the sink if one is
attached. -/
def Channel.resultChannelPush (ch : Channel) (ds : Datasets)
    (raw_value : PyVal) : (Channel × Datasets) × Option PyError :=
  match ch._coerce_to_type raw_value with
  | Except.error e => ((ch, ds), Option.some e)
  | Except.ok value =>
      match ch.base.sink with
      | Option.none => ((ch, ds), Option.none)
      | Option.some s =>
          ((ch.withBase { ch.base with sink := Option.some (s.push ds value).1.1 },
            (s.push ds value).1.2), (s.push ds value).2)

/-- `push` as dispatched on the concrete class: `NumericChannel.push` first
records `_value_pushed`/`_last_value`, then `_push` runs
`ResultChannel.push`; the other channels run `ResultChannel.push` directly. -/
def Channel.push (ch : Channel) (ds : Datasets) (raw_value : PyVal) :
    (Channel × Datasets) × Option PyError :=
  match ch with
  | Channel.floatChannel b n =>
      Channel.resultChannelPush
        (Channel.floatChannel b
          { n with _value_pushed := true, _last_value := raw_value }) ds raw_value
  | Channel.intChannel b n =>
      Channel.resultChannelPush
        (Channel.intChannel b
          { n with _value_pushed := true, _last_value := raw_value }) ds raw_value
  | Channel.opaqueChannel _ => Channel.resultChannelPush ch ds raw_value
  | Channel.subscanChannel _ => Channel.resultChannelPush ch ds raw_value

/-- `NumericChannel.get_last` on the numeric attributes. -/
def NumericData.get_last (n : NumericData) : Except PyError PyVal :=
  if !n._value_pushed then
    Except.error (PyError.runtimeError "No value pushed to channel")
  else Except.ok n._last_value

/-- `get_last` on a channel (`NumericChannel.get_last` for the numeric
channels; the base class has no such method, so an `AttributeError`
otherwise). -/
def Channel.get_last (ch : Channel) : Except PyError PyVal :=
  match ch with
  | Channel.floatChannel _ n => n.get_last
  | Channel.intChannel _ n => n.get_last
  | Channel.opaqueChannel _ => Except.error (PyError.attributeError "get_last")
  | Channel.subscanChannel _ => Except.error (PyError.attributeError "get_last")

/-- A value of the metadata mapping produced by `describe()`: a plain value,
or the nested `display_hints` mapping. -/
inductive DescVal where
  | val (v : PyVal)
  | hints (h : List (String × PyVal))
deriving DecidableEq, Repr

/-- `ResultChannel.describe`: `path`, `description`, `type`, and
`display_hints` only when the hint mapping is non-empty. -/
def ResultChannelData.describeBase (b : ResultChannelData)
    (typeString : String) : List (String × DescVal) :=
  [("path", DescVal.val (PyVal.str b.path)),
   ("description", DescVal.val (PyVal.str b.description)),
   ("type", DescVal.val (PyVal.str typeString))] ++
  (if b.display_hints.isEmpty then [] else [("display_hints", DescVal.hints b.display_hints)])

/-- The entries `NumericChannel.describe` appends to the base description:
`scale` always, `min`/`max` when not `None`, `unit` when not `None`. -/
def NumericData.describeExt (n : NumericData) : List (String × DescVal) :=
  [("scale", DescVal.val n.scale)] ++
  (match n.min with
   | Option.some m => [("min", DescVal.val m)]
   | Option.none => []) ++
  (match n.max with
   | Option.some m => [("max", DescVal.val m)]
   | Option.none => []) ++
  (match n.unit with
   | Option.some u => [("unit", DescVal.val (PyVal.str u))]
   | Option.none => [])

/-- Virtual `describe()` over the channel classes. -/
def Channel.describe (ch : Channel) : List (String × DescVal) :=
  match ch with
  | Channel.floatChannel b n => b.describeBase "float" ++ n.describeExt
  | Channel.intChannel b n => b.describeBase "int" ++ n.describeExt
  | Channel.opaqueChannel b => b.describeBase "opaque"
  | Channel.subscanChannel b => b.describeBase "subscan"

/-- Which numeric channel class to construct. -/
inductive NumericKind where
  | float
  | int
deriving DecidableEq, Repr

/-- The scale-resolution block of `NumericChannel.__init__`: an explicit
`scale` is used unchanged; otherwise an empty unit yields `1.0` and a
non-empty unit is looked up in the unit table, a `KeyError` if unknown. -/
def resolveScale (units : UnitTable) (unit : String) (scale : Option PyVal) :
    Except PyError PyVal :=
  match scale with
  | Option.some s => Except.ok s
  | Option.none =>
      if unit = "" then Except.ok (PyVal.float 1)
      else
        match List.lookup unit units with
        | Option.some q => Except.ok (PyVal.float q)
        | Option.none =>
            Except.error (PyError.keyError
              ("Unit " ++ unit ++ " is unknown, you must specify the scale manually"))

/-- `NumericChannel.__init__` (for `FloatChannel`/`IntChannel` as selected by
`kind`): resolves `scale` from the unit table when not given (`1.0` for an
empty unit, a `KeyError` for an unknown unit), stores the attributes, and
initialises the last-value cache with `_coerce_to_type(0)`.  Note the base
constructor is called without `save_by_default`, so it takes its default
`True`. -/
def NumericChannel.init (units : UnitTable) (kind : NumericKind)
    (path : String) (description : String)
    (display_hints : List (String × PyVal)) (min max : Option PyVal)
    (unit : String) (scale : Option PyVal) : Except PyError Channel :=
  match resolveScale units unit scale with
  | Except.error e => Except.error e
  | Except.ok sc =>
      let b : ResultChannelData :=
        { path := path, description := description,
          display_hints := display_hints, save_by_default := true,
          sink := Option.none }
      match kind with
      | NumericKind.float =>
          match pyFloat (PyVal.int 0) with
          | Except.error e => Except.error e
          | Except.ok lv =>
              Except.ok (Channel.floatChannel b
                { min := min, max := max, unit := Option.some unit, scale := sc,
                  _value_pushed := false, _last_value := lv })
      | NumericKind.int =>
          match pyInt (PyVal.int 0) with
          | Except.error e => Except.error e
          | Except.ok lv =>
              Except.ok (Channel.intChannel b
                { min := min, max := max, unit := Option.some unit, scale := sc,
                  _value_pushed := false, _last_value := lv })

/-- A sequence of `LastValueSink.push` calls. -/
def LastValueSink.pushMany (s : LastValueSink) (vs : List PyVal) : LastValueSink :=
  vs.foldl LastValueSink.push s

/-- A sequence of `ArraySink.push` calls. -/
def ArraySink.pushMany (s : ArraySink) (vs : List PyVal) : ArraySink :=
  vs.foldl ArraySink.push s

/-- A sequence of `ScalarDatasetSink.push` calls, threading the dataset
store. -/
def ScalarDatasetSink.pushMany (s : ScalarDatasetSink) (ds : Datasets)
    (vs : List PyVal) : ScalarDatasetSink × Datasets :=
  vs.foldl (fun p v => ScalarDatasetSink.push p.1 p.2 v) (s, ds)

/-- A sequence of `AppendingDatasetSink.push` calls, threading the dataset
store and stopping at the first error. -/
def AppendingDatasetSink.pushMany :
    AppendingDatasetSink → Datasets → List PyVal →
      Except PyError (AppendingDatasetSink × Datasets)
  | s, ds, [] => Except.ok (s, ds)
  | s, ds, v :: vs =>
      match s.push ds v with
      | Except.ok (s2, ds2) => AppendingDatasetSink.pushMany s2 ds2 vs
      | Except.error e => Except.error e

lemma lookup_setDataset (ds : Datasets) (k : String) (v : DsVal) :
    List.lookup k (setDataset ds k v) = Option.some v := by
  simp [setDataset, List.lookup]

lemma lookup_append_of_none {α β : Type} [BEq α] (l1 l2 : List (α × β))
    (k : α) (h : List.lookup k l1 = Option.none) :
    List.lookup k (l1 ++ l2) = List.lookup k l2 := by
  induction l1 with
  | nil => simp
  | cons a l ih =>
      obtain ⟨k1, v1⟩ := a
      rw [List.cons_append]
      rw [List.lookup] at h ⊢
      cases hk : (k == k1) with
      | true => simp only [hk] at h; exact Option.noConfusion h
      | false =>
          simp only [hk] at h ⊢
          exact ih h

lemma getLastD_concat {α : Type} (l : List α) (v d : α) :
    (l ++ [v]).getLastD d = v := by
  induction l generalizing d with
  | nil => rfl
  | cons a l ih => rw [List.cons_append, List.getLastD_cons]; exact ih a

lemma ArraySink.pushMany_data (s : ArraySink) (vs : List PyVal) :
    (s.pushMany vs).data = s.data ++ vs := by
  induction vs generalizing s with
  | nil => simp [ArraySink.pushMany]
  | cons v vs ih =>
      show ((s.push v).pushMany vs).data = s.data ++ (v :: vs)
      rw [ih]
      simp [ArraySink.push]

lemma LastValueSink.pushMany_concat (s : LastValueSink) (vs : List PyVal)
    (v : PyVal) : s.pushMany (vs ++ [v]) = { value := v } := by
  unfold LastValueSink.pushMany
  rw [List.foldl_append]
  rfl

lemma ScalarDatasetSink.pushMany_key (s : ScalarDatasetSink) (ds : Datasets)
    (vs : List PyVal) : (s.pushMany ds vs).1.key = s.key := by
  induction vs generalizing s ds with
  | nil => rfl
  | cons v vs ih =>
      show (ScalarDatasetSink.pushMany _ _ vs).1.key = s.key
      rw [ih]

lemma ScalarDatasetSink.pushMany_concat_store (s : ScalarDatasetSink)
    (ds : Datasets) (vs : List PyVal) (v : PyVal) :
    (s.pushMany ds (vs ++ [v])).1.has_pushed = true ∧
    List.lookup s.key (s.pushMany ds (vs ++ [v])).2 =
      Option.some (DsVal.val v) := by
  unfold ScalarDatasetSink.pushMany
  rw [List.foldl_append]
  refine ⟨rfl, ?_⟩
  show List.lookup s.key
      (setDataset (ScalarDatasetSink.pushMany s ds vs).2
        (ScalarDatasetSink.pushMany s ds vs).1.key (DsVal.val v)) = _
  rw [ScalarDatasetSink.pushMany_key]
  exact lookup_setDataset _ _ _

lemma ads_pushMany_started (key : String) (bc : Bool) (vs : List PyVal)
    (hvs : ∀ x ∈ vs, x ≠ PyVal.none) :
    ∀ (acc : List PyVal) (last : PyVal) (ds : Datasets),
      last ≠ PyVal.none →
      List.lookup key ds = Option.some (DsVal.arr acc) →
      ∃ ds2,
        AppendingDatasetSink.pushMany ⟨key, bc, last⟩ ds vs =
          Except.ok (⟨key, bc, vs.getLastD last⟩, ds2) ∧
        List.lookup key ds2 = Option.some (DsVal.arr (acc ++ vs)) := by
  induction vs with
  | nil =>
      intro acc last ds _ hds
      exact ⟨ds, rfl, by simpa using hds⟩
  | cons v vs ih =>
      intro acc last ds hlast hds
      have hv : v ≠ PyVal.none := hvs v (List.mem_cons_self v vs)
      have hvs2 : ∀ x ∈ vs, x ≠ PyVal.none :=
        fun x hx => hvs x (List.mem_cons_of_mem v hx)
      have hstep : AppendingDatasetSink.push ⟨key, bc, last⟩ ds v =
          Except.ok (⟨key, bc, v⟩, setDataset ds key (DsVal.arr (acc ++ [v]))) := by
        unfold AppendingDatasetSink.push appendToDataset
        rw [if_neg hv, if_neg hlast, hds]
      have hrec := ih hvs2 (acc ++ [v]) v
        (setDataset ds key (DsVal.arr (acc ++ [v]))) hv
        (lookup_setDataset _ _ _)
      obtain ⟨ds2, h1, h2⟩ := hrec
      refine ⟨ds2, ?_, ?_⟩
      · show AppendingDatasetSink.pushMany ⟨key, bc, last⟩ ds (v :: vs) = _
        unfold AppendingDatasetSink.pushMany
        rw [hstep]
        show AppendingDatasetSink.pushMany ⟨key, bc, v⟩
            (setDataset ds key (DsVal.arr (acc ++ [v]))) vs = _
        rw [h1, List.getLastD_cons]
      · rw [h2]
        simp

lemma ads_pushMany_build (key : String) (bc : Bool) (ds : Datasets)
    (w : PyVal) (ws : List PyVal) (hw : w ≠ PyVal.none)
    (hws : ∀ x ∈ ws, x ≠ PyVal.none) :
    ∃ ds2,
      AppendingDatasetSink.pushMany (AppendingDatasetSink.build key bc) ds
          (w :: ws) =
        Except.ok (⟨key, bc, ws.getLastD w⟩, ds2) ∧
      List.lookup key ds2 = Option.some (DsVal.arr (w :: ws)) := by
  have hstep : AppendingDatasetSink.push (AppendingDatasetSink.build key bc) ds w =
      Except.ok (⟨key, bc, w⟩, setDataset ds key (DsVal.arr [w])) := by
    unfold AppendingDatasetSink.push AppendingDatasetSink.build
    rw [if_neg hw, if_pos rfl]
  obtain ⟨ds2, h1, h2⟩ := ads_pushMany_started key bc ws hws [w] w
    (setDataset ds key (DsVal.arr [w])) hw (lookup_setDataset _ _ _)
  refine ⟨ds2, ?_, by simpa using h2⟩
  unfold AppendingDatasetSink.pushMany
  rw [hstep]
  show AppendingDatasetSink.pushMany ⟨key, bc, w⟩
      (setDataset ds key (DsVal.arr [w])) ws = _
  exact h1

lemma pyval_getLastD_ne_none (ws : List PyVal) :
    ∀ (w : PyVal), w ≠ PyVal.none → (∀ x ∈ ws, x ≠ PyVal.none) →
      ws.getLastD w ≠ PyVal.none := by
  induction ws with
  | nil => intro w hw _; exact hw
  | cons a l ih =>
      intro w _ hws
      rw [List.getLastD_cons]
      exact ih a (hws a (List.mem_cons_self a l))
        (fun x hx => hws x (List.mem_cons_of_mem a hx))

lemma base_withBase (ch : Channel) (b : ResultChannelData) :
    (ch.withBase b).base = b := by
  cases ch <;> rfl

lemma numData_withBase (ch : Channel) (b : ResultChannelData) :
    (ch.withBase b).numData = ch.numData := by
  cases ch <;> rfl

lemma get_last_withBase (ch : Channel) (b : ResultChannelData) :
    (ch.withBase b).get_last = ch.get_last := by
  cases ch <;> rfl

lemma resultChannelPush_numData (ch : Channel) (ds : Datasets) (v : PyVal) :
    (Channel.resultChannelPush ch ds v).1.1.numData = ch.numData := by
  unfold Channel.resultChannelPush
  cases hc : ch._coerce_to_type v with
  | error e => rfl
  | ok value =>
      cases hsk : ch.base.sink with
      | none => rfl
      | some s => exact numData_withBase ch _

lemma resultChannelPush_get_last (ch : Channel) (ds : Datasets) (v : PyVal) :
    (Channel.resultChannelPush ch ds v).1.1.get_last = ch.get_last := by
  unfold Channel.resultChannelPush
  cases hc : ch._coerce_to_type v with
  | error e => rfl
  | ok value =>
      cases hsk : ch.base.sink with
      | none => rfl
      | some s => exact get_last_withBase ch _

lemma resultChannelPush_no_sink (ch : Channel) (ds : Datasets) (v : PyVal)
    (hs : ch.base.sink = Option.none) :
    Channel.resultChannelPush ch ds v = ((ch, ds),
      match ch._coerce_to_type v with
      | Except.ok _ => Option.none
      | Except.error e => Option.some e) := by
  unfold Channel.resultChannelPush
  cases h : ch._coerce_to_type v with
  | error e => rfl
  | ok value => rw [hs]

/-- A fresh `ResultChannel` attribute record (path `"p"`, no sink), as
produced by the constructors. -/
def sampleBase : ResultChannelData :=
  { path := "p", description := "", display_hints := [],
    save_by_default := true, sink := Option.none }

/-- The numeric attributes of a freshly constructed `FloatChannel` with
default unit and scale. -/
def sampleNum : NumericData :=
  { min := Option.none, max := Option.none, unit := Option.some "",
    scale := PyVal.float 1, _value_pushed := false,
    _last_value := PyVal.float ((0 : Int) : ℚ) }

/-- C1: counterexample.  A `FloatChannel` with no sink attached: pushing
`None` raises a `TypeError` (the coercion runs before the sink check), and
pushing updates the channel's last-value cache — `get_last()` raised before
the push and afterwards returns the pushed value, so the push has an
observable side effect and the value is buffered, not discarded. -/
theorem c1_push_without_sink_counterexample :
    (Channel.floatChannel sampleBase sampleNum).base.sink = Option.none ∧
    (Channel.push (Channel.floatChannel sampleBase sampleNum) [] PyVal.none).2 =
      Option.some (PyError.typeError "float() argument must be a number") ∧
    (Channel.floatChannel sampleBase sampleNum).get_last =
      Except.error (PyError.runtimeError "No value pushed to channel") ∧
    (Channel.push (Channel.floatChannel sampleBase sampleNum) [] PyVal.none).1.1.get_last =
      Except.ok PyVal.none :=
  ⟨rfl, rfl, rfl, rfl⟩

/-- C1 (amended): for every channel with no sink attached, `is_muted()` is
false and `push(value)` forwards nothing (the dataset store and the base
attributes, the absent sink included, are unchanged); when the channel's
coercion accepts the value no error is raised; an `OpaqueChannel` or
`SubscanChannel` is left entirely unchanged (the value is discarded), while
a numeric channel additionally records the raw value in its last-value
cache. -/
theorem c1_push_without_sink (ch : Channel) (ds : Datasets) (v : PyVal)
    (hs : ch.base.sink = Option.none) :
    ch.is_muted = false ∧
    (Channel.push ch ds v).1.2 = ds ∧
    (Channel.push ch ds v).1.1.base = ch.base ∧
    ((ch._coerce_to_type v).isOk = true → (Channel.push ch ds v).2 = Option.none) ∧
    (∀ b, ch = Channel.opaqueChannel b → (Channel.push ch ds v).1.1 = ch) ∧
    (∀ b, ch = Channel.subscanChannel b → (Channel.push ch ds v).1.1 = ch) ∧
    (∀ b n, ch = Channel.floatChannel b n →
      (Channel.push ch ds v).1.1 =
        Channel.floatChannel b { n with _value_pushed := true, _last_value := v }) ∧
    (∀ b n, ch = Channel.intChannel b n →
      (Channel.push ch ds v).1.1 =
        Channel.intChannel b { n with _value_pushed := true, _last_value := v }) := by
  have hmuted : ch.is_muted = false := by
    unfold Channel.is_muted
    rw [hs]
    rfl
  cases ch with
  | floatChannel b n =>
      have hb : b.sink = Option.none := hs
      have hp := resultChannelPush_no_sink
        (Channel.floatChannel b { n with _value_pushed := true, _last_value := v }) ds v hb
      refine ⟨hmuted, ?_, ?_, ?_, ?_, ?_, ?_, ?_⟩
      · show (Channel.resultChannelPush _ ds v).1.2 = ds
        rw [hp]
      · show (Channel.resultChannelPush _ ds v).1.1.base = b
        rw [hp]
        rfl
      · intro hok
        show (Channel.resultChannelPush _ ds v).2 = Option.none
        rw [hp]
        cases hc : Channel._coerce_to_type (Channel.floatChannel b n) v with
        | ok value =>
            have : Channel._coerce_to_type
              (Channel.floatChannel b { n with _value_pushed := true, _last_value := v }) v =
                Except.ok value := hc
            rw [this]
        | error e => rw [hc] at hok; exact Bool.noConfusion hok
      · intro b2 hb2; exact Channel.noConfusion hb2
      · intro b2 hb2; exact Channel.noConfusion hb2
      · intro b2 n2 hb2
        obtain ⟨rfl, rfl⟩ : b = b2 ∧ n = n2 := by
          cases hb2; exact ⟨rfl, rfl⟩
        show (Channel.resultChannelPush _ ds v).1.1 = _
        rw [hp]
      · intro b2 n2 hb2; exact Channel.noConfusion hb2
  | intChannel b n =>
      have hb : b.sink = Option.none := hs
      have hp := resultChannelPush_no_sink
        (Channel.intChannel b { n with _value_pushed := true, _last_value := v }) ds v hb
      refine ⟨hmuted, ?_, ?_, ?_, ?_, ?_, ?_, ?_⟩
      · show (Channel.resultChannelPush _ ds v).1.2 = ds
        rw [hp]
      · show (Channel.resultChannelPush _ ds v).1.1.base = b
        rw [hp]
        rfl
      · intro hok
        show (Channel.resultChannelPush _ ds v).2 = Option.none
        rw [hp]
        cases hc : Channel._coerce_to_type (Channel.intChannel b n) v with
        | ok value =>
            have : Channel._coerce_to_type
              (Channel.intChannel b { n with _value_pushed := true, _last_value := v }) v =
                Except.ok value := hc
            rw [this]
        | error e => rw [hc] at hok; exact Bool.noConfusion hok
      · intro b2 hb2; exact Channel.noConfusion hb2
      · intro b2 hb2; exact Channel.noConfusion hb2
      · intro b2 n2 hb2; exact Channel.noConfusion hb2
      · intro b2 n2 hb2
        obtain ⟨rfl, rfl⟩ : b = b2 ∧ n = n2 := by
          cases hb2; exact ⟨rfl, rfl⟩
        show (Channel.resultChannelPush _ ds v).1.1 = _
        rw [hp]
  | opaqueChannel b =>
      have hb : b.sink = Option.none := hs
      have hp := resultChannelPush_no_sink (Channel.opaqueChannel b) ds v hb
      refine ⟨hmuted, ?_, ?_, ?_, ?_, ?_, ?_, ?_⟩
      · show (Channel.resultChannelPush _ ds v).1.2 = ds
        rw [hp]
      · show (Channel.resultChannelPush _ ds v).1.1.base = b
        rw [hp]
        rfl
      · intro _
        show (Channel.resultChannelPush _ ds v).2 = Option.none
        rw [hp]
        rfl
      · intro b2 _
        show (Channel.resultChannelPush _ ds v).1.1 = _
        rw [hp]
      · intro b2 hb2; exact Channel.noConfusion hb2
      · intro b2 n2 hb2; exact Channel.noConfusion hb2
      · intro b2 n2 hb2; exact Channel.noConfusion hb2
  | subscanChannel b =>
      have hb : b.sink = Option.none := hs
      have hp := resultChannelPush_no_sink (Channel.subscanChannel b) ds v hb
      refine ⟨hmuted, ?_, ?_, ?_, ?_, ?_, ?_, ?_⟩
      · show (Channel.resultChannelPush _ ds v).1.2 = ds
        rw [hp]
      · show (Channel.resultChannelPush _ ds v).1.1.base = b
        rw [hp]
        rfl
      · intro _
        show (Channel.resultChannelPush _ ds v).2 = Option.none
        rw [hp]
        rfl
      · intro b2 hb2; exact Channel.noConfusion hb2
      · intro b2 _
        show (Channel.resultChannelPush _ ds v).1.1 = _
        rw [hp]
      · intro b2 n2 hb2; exact Channel.noConfusion hb2
      · intro b2 n2 hb2; exact Channel.noConfusion hb2

/-- C1 (amended) at a concrete input: a sink-less `FloatChannel`, a pushed
value of `5`. -/
theorem c1_push_without_sink_witness :
    (Channel.floatChannel sampleBase sampleNum).is_muted = false ∧
    (Channel.push (Channel.floatChannel sampleBase sampleNum) [] (PyVal.int 5)).1.2 = [] ∧
    (Channel.push (Channel.floatChannel sampleBase sampleNum) [] (PyVal.int 5)).1.1.base =
      (Channel.floatChannel sampleBase sampleNum).base ∧
    (((Channel.floatChannel sampleBase sampleNum)._coerce_to_type (PyVal.int 5)).isOk = true →
      (Channel.push (Channel.floatChannel sampleBase sampleNum) [] (PyVal.int 5)).2 = Option.none) ∧
    (∀ b, Channel.floatChannel sampleBase sampleNum = Channel.opaqueChannel b →
      (Channel.push (Channel.floatChannel sampleBase sampleNum) [] (PyVal.int 5)).1.1 =
        Channel.floatChannel sampleBase sampleNum) ∧
    (∀ b, Channel.floatChannel sampleBase sampleNum = Channel.subscanChannel b →
      (Channel.push (Channel.floatChannel sampleBase sampleNum) [] (PyVal.int 5)).1.1 =
        Channel.floatChannel sampleBase sampleNum) ∧
    (∀ b n, Channel.floatChannel sampleBase sampleNum = Channel.floatChannel b n →
      (Channel.push (Channel.floatChannel sampleBase sampleNum) [] (PyVal.int 5)).1.1 =
        Channel.floatChannel b { n with _value_pushed := true, _last_value := PyVal.int 5 }) ∧
    (∀ b n, Channel.floatChannel sampleBase sampleNum = Channel.intChannel b n →
      (Channel.push (Channel.floatChannel sampleBase sampleNum) [] (PyVal.int 5)).1.1 =
        Channel.intChannel b { n with _value_pushed := true, _last_value := PyVal.int 5 }) :=
  c1_push_without_sink (Channel.floatChannel sampleBase sampleNum) [] (PyVal.int 5) rfl

/-- C3: on a fresh (or reset) `SingleUseSink` the first `push(v)` succeeds
and `get()`/`get_last()` then return exactly `v`; a second push while the
sink is set raises; `get()`/`get_last()` on an unset sink raise; after
`reset()` a push succeeds again. -/
theorem c3_single_use_sink (v w u : PyVal) :
    (SingleUseSink.new.push v = Except.ok { _is_set := true, _value := v }) ∧
    (SingleUseSink.get { _is_set := true, _value := v } = Except.ok v) ∧
    (SingleUseSink.get_last { _is_set := true, _value := v } = Except.ok v) ∧
    (SingleUseSink.push { _is_set := true, _value := u } w =
      Except.error (PyError.runtimeError "Result channel already pushed to")) ∧
    (SingleUseSink.get { _is_set := false, _value := u } =
      Except.error (PyError.valueError "No value pushed to sink")) ∧
    (SingleUseSink.get_last { _is_set := false, _value := u } =
      Except.error (PyError.valueError "No value pushed to sink")) ∧
    (∀ s : SingleUseSink, s.reset.push w =
      Except.ok { _is_set := true, _value := w }) :=
  ⟨rfl, rfl, rfl, rfl, rfl, rfl, fun _ => rfl⟩

/-- C4: `NumericChannel.push` records the raw value and sets the
has-been-pushed flag before dispatching (the cache is updated even when the
sink dispatch or the coercion inside it errors); `get_last()` raises a
`RuntimeError` exactly when nothing has been pushed, otherwise returns the
cached raw value; and `get_last` never consults the sink (it is insensitive
to the base attributes, the sink included). -/
theorem c4_numeric_cache (b b2 : ResultChannelData) (n : NumericData)
    (ds : Datasets) (raw : PyVal) :
    ((Channel.push (Channel.floatChannel b n) ds raw).1.1.numData =
      Option.some { n with _value_pushed := true, _last_value := raw }) ∧
    ((Channel.push (Channel.intChannel b n) ds raw).1.1.numData =
      Option.some { n with _value_pushed := true, _last_value := raw }) ∧
    ((Channel.push (Channel.floatChannel b n) ds raw).1.1.get_last =
      Except.ok raw) ∧
    ((Channel.push (Channel.intChannel b n) ds raw).1.1.get_last =
      Except.ok raw) ∧
    (n._value_pushed = false →
      (Channel.floatChannel b n).get_last =
        Except.error (PyError.runtimeError "No value pushed to channel") ∧
      (Channel.intChannel b n).get_last =
        Except.error (PyError.runtimeError "No value pushed to channel")) ∧
    (n._value_pushed = true →
      (Channel.floatChannel b n).get_last = Except.ok n._last_value ∧
      (Channel.intChannel b n).get_last = Except.ok n._last_value) ∧
    ((Channel.floatChannel b n).get_last = (Channel.floatChannel b2 n).get_last) ∧
    ((Channel.intChannel b n).get_last = (Channel.intChannel b2 n).get_last) := by
  refine ⟨?_, ?_, ?_, ?_, ?_, ?_, rfl, rfl⟩
  · show (Channel.resultChannelPush
      (Channel.floatChannel b { n with _value_pushed := true, _last_value := raw })
      ds raw).1.1.numData = _
    rw [resultChannelPush_numData]
    rfl
  · show (Channel.resultChannelPush
      (Channel.intChannel b { n with _value_pushed := true, _last_value := raw })
      ds raw).1.1.numData = _
    rw [resultChannelPush_numData]
    rfl
  · show (Channel.resultChannelPush
      (Channel.floatChannel b { n with _value_pushed := true, _last_value := raw })
      ds raw).1.1.get_last = _
    rw [resultChannelPush_get_last]
    rfl
  · show (Channel.resultChannelPush
      (Channel.intChannel b { n with _value_pushed := true, _last_value := raw })
      ds raw).1.1.get_last = _
    rw [resultChannelPush_get_last]
    rfl
  · intro hfresh
    constructor
    · show n.get_last = _
      unfold NumericData.get_last
      rw [hfresh]
      rfl
    · show n.get_last = _
      unfold NumericData.get_last
      rw [hfresh]
      rfl
  · intro hset
    constructor
    · show n.get_last = _
      unfold NumericData.get_last
      rw [hset]
      rfl
    · show n.get_last = _
      unfold NumericData.get_last
      rw [hset]
      rfl

/-- C4 at a concrete input: a fresh sink-less `FloatChannel`; `get_last`
raises before a push and returns `7` after `push(7)`. -/
theorem c4_numeric_cache_witness :
    (Channel.push (Channel.floatChannel sampleBase sampleNum) [] (PyVal.int 7)).1.1.get_last =
      Except.ok (PyVal.int 7) ∧
    (Channel.floatChannel sampleBase sampleNum).get_last =
      Except.error (PyError.runtimeError "No value pushed to channel") := by
  have h := c4_numeric_cache sampleBase sampleBase sampleNum [] (PyVal.int 7)
  exact ⟨h.2.2.1, (h.2.2.2.2.1 rfl).1⟩

lemma lookup_append_of_some {α β : Type} [BEq α] (l1 l2 : List (α × β))
    (k : α) (v : β) (h : List.lookup k l1 = Option.some v) :
    List.lookup k (l1 ++ l2) = Option.some v := by
  induction l1 with
  | nil => rw [List.lookup] at h; exact Option.noConfusion h
  | cons a l ih =>
      obtain ⟨k1, v1⟩ := a
      rw [List.cons_append]
      rw [List.lookup] at h ⊢
      cases hk : (k == k1) with
      | true => simp only [hk] at h ⊢; exact h
      | false => simp only [hk] at h ⊢; exact ih h

lemma lookup_describeBase (b : ResultChannelData) (t : String) :
    List.lookup "path" (b.describeBase t) =
      Option.some (DescVal.val (PyVal.str b.path)) ∧
    List.lookup "description" (b.describeBase t) =
      Option.some (DescVal.val (PyVal.str b.description)) ∧
    List.lookup "type" (b.describeBase t) =
      Option.some (DescVal.val (PyVal.str t)) ∧
    List.lookup "display_hints" (b.describeBase t) =
      (if b.display_hints.isEmpty then Option.none
       else Option.some (DescVal.hints b.display_hints)) ∧
    (List.lookup "scale" (b.describeBase t) = Option.none) ∧
    (List.lookup "min" (b.describeBase t) = Option.none) ∧
    (List.lookup "max" (b.describeBase t) = Option.none) ∧
    (List.lookup "unit" (b.describeBase t) = Option.none) ∧
    (b.describeBase t).map Prod.fst =
      ["path", "description", "type"] ++
        (if b.display_hints.isEmpty then [] else ["display_hints"]) := by
  unfold ResultChannelData.describeBase
  cases b.display_hints <;> simp [List.lookup]

lemma lookup_describeExt (n : NumericData) :
    List.lookup "scale" n.describeExt = Option.some (DescVal.val n.scale) ∧
    List.lookup "min" n.describeExt = n.min.map DescVal.val ∧
    List.lookup "max" n.describeExt = n.max.map DescVal.val ∧
    List.lookup "unit" n.describeExt =
      n.unit.map (fun u => DescVal.val (PyVal.str u)) ∧
    n.describeExt.map Prod.fst =
      ["scale"] ++ (if n.min.isSome then ["min"] else []) ++
        (if n.max.isSome then ["max"] else []) ++
        (if n.unit.isSome then ["unit"] else []) := by
  unfold NumericData.describeExt
  cases n.min <;> cases n.max <;> cases n.unit <;> simp [List.lookup]

lemma lookup_unit_numeric (b : ResultChannelData) (n : NumericData) :
    List.lookup "unit" (Channel.floatChannel b n).describe =
      n.unit.map (fun u => DescVal.val (PyVal.str u)) ∧
    List.lookup "unit" (Channel.intChannel b n).describe =
      n.unit.map (fun u => DescVal.val (PyVal.str u)) := by
  constructor
  · show List.lookup "unit" (ResultChannelData.describeBase b "float" ++ _) = _
    rw [lookup_append_of_none _ _ _ (lookup_describeBase b "float").2.2.2.2.2.2.2.1]
    exact (lookup_describeExt n).2.2.2.1
  · show List.lookup "unit" (ResultChannelData.describeBase b "int" ++ _) = _
    rw [lookup_append_of_none _ _ _ (lookup_describeBase b "int").2.2.2.2.2.2.2.1]
    exact (lookup_describeExt n).2.2.2.1

lemma init_float_eq {units : UnitTable} {path description : String}
    {hints : List (String × PyVal)} {mn mx : Option PyVal} {u : String}
    {sc : Option PyVal} {s : PyVal}
    (hr : resolveScale units u sc = Except.ok s) :
    NumericChannel.init units NumericKind.float path description hints mn mx u sc =
      Except.ok (Channel.floatChannel
        { path := path, description := description, display_hints := hints,
          save_by_default := true, sink := Option.none }
        { min := mn, max := mx, unit := Option.some u, scale := s,
          _value_pushed := false,
          _last_value := PyVal.float ((0 : Int) : ℚ) }) := by
  unfold NumericChannel.init
  rw [hr]
  rfl

lemma init_int_eq {units : UnitTable} {path description : String}
    {hints : List (String × PyVal)} {mn mx : Option PyVal} {u : String}
    {sc : Option PyVal} {s : PyVal}
    (hr : resolveScale units u sc = Except.ok s) :
    NumericChannel.init units NumericKind.int path description hints mn mx u sc =
      Except.ok (Channel.intChannel
        { path := path, description := description, display_hints := hints,
          save_by_default := true, sink := Option.none }
        { min := mn, max := mx, unit := Option.some u, scale := s,
          _value_pushed := false, _last_value := PyVal.int 0 }) := by
  unfold NumericChannel.init
  rw [hr]
  rfl

lemma init_error_eq {units : UnitTable} {kind : NumericKind}
    {path description : String} {hints : List (String × PyVal)}
    {mn mx : Option PyVal} {u : String} {sc : Option PyVal} {e : PyError}
    (hr : resolveScale units u sc = Except.error e) :
    NumericChannel.init units kind path description hints mn mx u sc =
      Except.error e := by
  unfold NumericChannel.init
  rw [hr]

/-- C2: counterexample.  A `FloatChannel` constructed with the default empty
unit string: `describe()` nonetheless contains a `unit` entry (with value
`""`), because the code guards the entry with `unit is not None`, not with
non-emptiness — contradicting "contains unit only when it is set
(non-empty)". -/
theorem c2_describe_counterexample :
    NumericChannel.init artiqUnits NumericKind.float "p" "" [] Option.none
        Option.none "" Option.none =
      Except.ok (Channel.floatChannel sampleBase sampleNum) ∧
    List.lookup "unit" (Channel.floatChannel sampleBase sampleNum).describe =
      Option.some (DescVal.val (PyVal.str "")) :=
  ⟨rfl, rfl⟩

/-- C2 (amended): `describe()` returns a mapping with exactly the keys
`path`, `description`, `type` (the type string of the variant), plus
`display_hints` only when the hint mapping is non-empty; for a numeric
channel it additionally always contains `scale`, contains `min`/`max`
exactly when each is not `None`, and contains `unit` whenever the `unit`
attribute is not `None` — which holds for every constructed channel, the
empty unit string included. -/
theorem c2_describe (b : ResultChannelData) (n : NumericData) :
    ((Channel.opaqueChannel b).describe.map Prod.fst =
      ["path", "description", "type"] ++
        (if b.display_hints.isEmpty then [] else ["display_hints"])) ∧
    ((Channel.subscanChannel b).describe.map Prod.fst =
      ["path", "description", "type"] ++
        (if b.display_hints.isEmpty then [] else ["display_hints"])) ∧
    ((Channel.floatChannel b n).describe.map Prod.fst =
      (["path", "description", "type"] ++
        (if b.display_hints.isEmpty then [] else ["display_hints"])) ++
      (["scale"] ++ (if n.min.isSome then ["min"] else []) ++
        (if n.max.isSome then ["max"] else []) ++
        (if n.unit.isSome then ["unit"] else []))) ∧
    ((Channel.intChannel b n).describe.map Prod.fst =
      (["path", "description", "type"] ++
        (if b.display_hints.isEmpty then [] else ["display_hints"])) ++
      (["scale"] ++ (if n.min.isSome then ["min"] else []) ++
        (if n.max.isSome then ["max"] else []) ++
        (if n.unit.isSome then ["unit"] else []))) ∧
    (List.lookup "path" (Channel.floatChannel b n).describe =
      Option.some (DescVal.val (PyVal.str b.path))) ∧
    (List.lookup "description" (Channel.floatChannel b n).describe =
      Option.some (DescVal.val (PyVal.str b.description))) ∧
    (List.lookup "type" (Channel.floatChannel b n).describe =
      Option.some (DescVal.val (PyVal.str "float"))) ∧
    (List.lookup "type" (Channel.intChannel b n).describe =
      Option.some (DescVal.val (PyVal.str "int"))) ∧
    (List.lookup "type" (Channel.opaqueChannel b).describe =
      Option.some (DescVal.val (PyVal.str "opaque"))) ∧
    (List.lookup "type" (Channel.subscanChannel b).describe =
      Option.some (DescVal.val (PyVal.str "subscan"))) ∧
    (List.lookup "display_hints" (Channel.opaqueChannel b).describe =
      (if b.display_hints.isEmpty then Option.none
       else Option.some (DescVal.hints b.display_hints))) ∧
    (List.lookup "scale" (Channel.floatChannel b n).describe =
      Option.some (DescVal.val n.scale)) ∧
    (List.lookup "min" (Channel.floatChannel b n).describe =
      n.min.map DescVal.val) ∧
    (List.lookup "max" (Channel.floatChannel b n).describe =
      n.max.map DescVal.val) ∧
    (List.lookup "unit" (Channel.floatChannel b n).describe =
      n.unit.map (fun u => DescVal.val (PyVal.str u))) ∧
    (∀ (units : UnitTable) (kind : NumericKind) (path description : String)
        (hints : List (String × PyVal)) (mn mx : Option PyVal) (u : String)
        (sc : Option PyVal) (ch : Channel),
      NumericChannel.init units kind path description hints mn mx u sc =
          Except.ok ch →
      List.lookup "unit" ch.describe =
        Option.some (DescVal.val (PyVal.str u))) := by
  refine ⟨?_, ?_, ?_, ?_, ?_, ?_, ?_, ?_, ?_, ?_, ?_, ?_, ?_, ?_, ?_, ?_⟩
  · exact (lookup_describeBase b "opaque").2.2.2.2.2.2.2.2
  · exact (lookup_describeBase b "subscan").2.2.2.2.2.2.2.2
  · show (ResultChannelData.describeBase b "float" ++
        NumericData.describeExt n).map Prod.fst = _
    rw [List.map_append, (lookup_describeBase b "float").2.2.2.2.2.2.2.2,
      (lookup_describeExt n).2.2.2.2]
  · show (ResultChannelData.describeBase b "int" ++
        NumericData.describeExt n).map Prod.fst = _
    rw [List.map_append, (lookup_describeBase b "int").2.2.2.2.2.2.2.2,
      (lookup_describeExt n).2.2.2.2]
  · show List.lookup "path" (ResultChannelData.describeBase b "float" ++ _) = _
    exact lookup_append_of_some _ _ _ _ (lookup_describeBase b "float").1
  · show List.lookup "description"
        (ResultChannelData.describeBase b "float" ++ _) = _
    exact lookup_append_of_some _ _ _ _ (lookup_describeBase b "float").2.1
  · show List.lookup "type" (ResultChannelData.describeBase b "float" ++ _) = _
    exact lookup_append_of_some _ _ _ _ (lookup_describeBase b "float").2.2.1
  · show List.lookup "type" (ResultChannelData.describeBase b "int" ++ _) = _
    exact lookup_append_of_some _ _ _ _ (lookup_describeBase b "int").2.2.1
  · exact (lookup_describeBase b "opaque").2.2.1
  · exact (lookup_describeBase b "subscan").2.2.1
  · exact (lookup_describeBase b "opaque").2.2.2.1
  · show List.lookup "scale" (ResultChannelData.describeBase b "float" ++ _) = _
    rw [lookup_append_of_none _ _ _ (lookup_describeBase b "float").2.2.2.2.1]
    exact (lookup_describeExt n).1
  · show List.lookup "min" (ResultChannelData.describeBase b "float" ++ _) = _
    rw [lookup_append_of_none _ _ _ (lookup_describeBase b "float").2.2.2.2.2.1]
    exact (lookup_describeExt n).2.1
  · show List.lookup "max" (ResultChannelData.describeBase b "float" ++ _) = _
    rw [lookup_append_of_none _ _ _ (lookup_describeBase b "float").2.2.2.2.2.2.1]
    exact (lookup_describeExt n).2.2.1
  · exact (lookup_unit_numeric b n).1
  · intro units kind path description hints mn mx u sc ch h
    cases hr : resolveScale units u sc with
    | error e => rw [init_error_eq hr] at h; exact Except.noConfusion h
    | ok s =>
        cases kind with
        | float =>
            rw [init_float_eq hr] at h
            injection h with h2
            subst h2
            rw [(lookup_unit_numeric _ _).1]
            rfl
        | int =>
            rw [init_int_eq hr] at h
            injection h with h2
            subst h2
            rw [(lookup_unit_numeric _ _).2]
            rfl

/-- C2 (amended) at a concrete input: a constructed `FloatChannel` with unit
`"ms"`; `describe()` has a `unit` entry. -/
theorem c2_describe_witness :
    List.lookup "unit"
        (Channel.floatChannel sampleBase sampleNum).describe =
      (Option.some "").map (fun u => DescVal.val (PyVal.str u)) :=
  (c2_describe sampleBase sampleNum).2.2.2.2.2.2.2.2.2.2.2.2.2.2.1

/-- C5: at `NumericChannel` construction, when `scale` is not given and
`unit` is non-empty the scale is resolved by looking `unit` up in the unit
table (`unit="kHz"` yields the table entry for kHz); an unknown unit with no
explicit scale fails with a `KeyError`; an explicitly given scale is used
unchanged. -/
theorem c5_unit_scale (units : UnitTable) (kind : NumericKind)
    (path description : String) (hints : List (String × PyVal))
    (mn mx : Option PyVal) (unit : String) (sc : PyVal) (q : ℚ) :
    (unit ≠ "" → List.lookup unit units = Option.none →
      NumericChannel.init units kind path description hints mn mx unit
          Option.none =
        Except.error (PyError.keyError
          ("Unit " ++ unit ++ " is unknown, you must specify the scale manually"))) ∧
    (unit ≠ "" → List.lookup unit units = Option.some q →
      ∃ ch, NumericChannel.init units kind path description hints mn mx unit
            Option.none = Except.ok ch ∧
        ch.numData.map NumericData.scale = Option.some (PyVal.float q)) ∧
    (∃ ch, NumericChannel.init units kind path description hints mn mx unit
          (Option.some sc) = Except.ok ch ∧
      ch.numData.map NumericData.scale = Option.some sc) := by
  refine ⟨?_, ?_, ?_⟩
  · intro hne hlk
    have hr : resolveScale units unit Option.none = Except.error
        (PyError.keyError
          ("Unit " ++ unit ++ " is unknown, you must specify the scale manually")) := by
      show (if unit = "" then _ else _) = _
      rw [if_neg hne, hlk]
    exact init_error_eq hr
  · intro hne hlk
    have hr : resolveScale units unit Option.none =
        Except.ok (PyVal.float q) := by
      show (if unit = "" then _ else _) = _
      rw [if_neg hne, hlk]
    cases kind with
    | float => exact ⟨_, init_float_eq hr, rfl⟩
    | int => exact ⟨_, init_int_eq hr, rfl⟩
  · have hr : resolveScale units unit (Option.some sc) = Except.ok sc := rfl
    cases kind with
    | float => exact ⟨_, init_float_eq hr, rfl⟩
    | int => exact ⟨_, init_int_eq hr, rfl⟩

/-- C5 at concrete inputs: `unit="kHz"` with no scale resolves to the
table's kHz constant `1000`; `unit="THz"` (absent from the table) with no
scale raises the `KeyError`. -/
theorem c5_unit_scale_witness :
    (∃ ch, NumericChannel.init artiqUnits NumericKind.float "p" "" []
          Option.none Option.none "kHz" Option.none = Except.ok ch ∧
      ch.numData.map NumericData.scale = Option.some (PyVal.float 1000)) ∧
    NumericChannel.init artiqUnits NumericKind.float "p" "" [] Option.none
        Option.none "THz" Option.none =
      Except.error (PyError.keyError
        "Unit THz is unknown, you must specify the scale manually") := by
  have h1 := c5_unit_scale artiqUnits NumericKind.float "p" "" [] Option.none
    Option.none "kHz" (PyVal.float 1) 1000
  have h2 := c5_unit_scale artiqUnits NumericKind.float "p" "" [] Option.none
    Option.none "THz" (PyVal.float 1) 1000
  exact ⟨h1.2.1 (by decide) rfl, h2.1 (by decide) rfl⟩

/-- C10: a `NumericChannel` constructed with no explicit scale and an empty
unit gets scale `1.0` (also the `scale` entry of `describe()`), and the unit
table is not consulted: the result is identical for every table. -/
theorem c10_empty_unit_scale (units units2 : UnitTable) (kind : NumericKind)
    (path description : String) (hints : List (String × PyVal))
    (mn mx : Option PyVal) :
    (NumericChannel.init units kind path description hints mn mx ""
        Option.none =
      NumericChannel.init units2 kind path description hints mn mx ""
        Option.none) ∧
    ∃ ch, NumericChannel.init units kind path description hints mn mx ""
          Option.none = Except.ok ch ∧
      ch.numData.map NumericData.scale = Option.some (PyVal.float 1) ∧
      List.lookup "scale" ch.describe =
        Option.some (DescVal.val (PyVal.float 1)) := by
  have hr : ∀ us : UnitTable,
      resolveScale us "" Option.none = Except.ok (PyVal.float 1) :=
    fun us => rfl
  constructor
  · cases kind with
    | float => rw [init_float_eq (hr units), init_float_eq (hr units2)]
    | int => rw [init_int_eq (hr units), init_int_eq (hr units2)]
  · cases kind with
    | float =>
        refine ⟨_, init_float_eq (hr units), rfl, ?_⟩
        show List.lookup "scale"
            (ResultChannelData.describeBase _ "float" ++ _) = _
        rw [lookup_append_of_none _ _ _
          (lookup_describeBase _ "float").2.2.2.2.1]
        exact (lookup_describeExt _).1
    | int =>
        refine ⟨_, init_int_eq (hr units), rfl, ?_⟩
        show List.lookup "scale"
            (ResultChannelData.describeBase _ "int" ++ _) = _
        rw [lookup_append_of_none _ _ _
          (lookup_describeBase _ "int").2.2.2.2.1]
        exact (lookup_describeExt _).1

/-- C6: `AppendingDatasetSink` rejects `push(None)` by assertion; starting
from a fresh sink, pushing the non-`None` values `v :: vs` leaves the store
entry at the sink's key equal to `v :: vs` in push order; `get_all()` is
`[]` before any push and reads the sequence back from the store
afterwards. -/
theorem c6_appending_dataset_sink (key : String) (bc : Bool) (ds : Datasets)
    (v : PyVal) (vs : List PyVal) (s : AppendingDatasetSink)
    (hv : v ≠ PyVal.none) (hvs : ∀ x ∈ vs, x ≠ PyVal.none) :
    (AppendingDatasetSink.push s ds PyVal.none =
      Except.error PyError.assertionError) ∧
    ((AppendingDatasetSink.build key bc).get_all ds =
      Except.ok (DsVal.arr [])) ∧
    (∃ s2 ds2,
      AppendingDatasetSink.pushMany (AppendingDatasetSink.build key bc) ds
          (v :: vs) = Except.ok (s2, ds2) ∧
      List.lookup key ds2 = Option.some (DsVal.arr (v :: vs)) ∧
      s2.get_all ds2 = Except.ok (DsVal.arr (v :: vs))) := by
  refine ⟨?_, rfl, ?_⟩
  · unfold AppendingDatasetSink.push
    rw [if_pos rfl]
  · obtain ⟨ds2, h1, h2⟩ := ads_pushMany_build key bc ds v vs hv hvs
    refine ⟨_, ds2, h1, h2, ?_⟩
    unfold AppendingDatasetSink.get_all
    rw [if_neg (pyval_getLastD_ne_none vs v hv hvs)]
    unfold getDataset
    rw [h2]

/-- C6 at concrete inputs: key `"k"`, pushes `1` then `2`. -/
theorem c6_appending_dataset_sink_witness :
    (AppendingDatasetSink.push (AppendingDatasetSink.build "k" true) []
        PyVal.none = Except.error PyError.assertionError) ∧
    ((AppendingDatasetSink.build "k" true).get_all [] =
      Except.ok (DsVal.arr [])) ∧
    (∃ s2 ds2,
      AppendingDatasetSink.pushMany (AppendingDatasetSink.build "k" true) []
          [PyVal.int 1, PyVal.int 2] = Except.ok (s2, ds2) ∧
      List.lookup "k" ds2 =
        Option.some (DsVal.arr [PyVal.int 1, PyVal.int 2]) ∧
      s2.get_all ds2 = Except.ok (DsVal.arr [PyVal.int 1, PyVal.int 2])) :=
  c6_appending_dataset_sink "k" true [] (PyVal.int 1) [PyVal.int 2]
    (AppendingDatasetSink.build "k" true) (by decide) (by decide)

/-- C8: for an `ArraySink`, `get_all()` returns exactly the pushed values in
push order, and after `clear()` it returns `[]`. -/
theorem c8_array_sink (vs : List PyVal) (s : ArraySink) :
    ((ArraySink.new.pushMany vs).get_all = vs) ∧
    ((s.pushMany vs).get_all = s.data ++ vs) ∧
    (s.clear.get_all = []) ∧
    ((s.clear.pushMany vs).get_all = vs) := by
  refine ⟨?_, ?_, rfl, ?_⟩
  · show (ArraySink.new.pushMany vs).data = vs
    rw [ArraySink.pushMany_data]
    rfl
  · exact ArraySink.pushMany_data s vs
  · show (s.clear.pushMany vs).data = vs
    rw [ArraySink.pushMany_data]
    rfl

/-- C7: `get_last()` for `LastValueSink`, `ArraySink`,
`AppendingDatasetSink` and `ScalarDatasetSink` returns `None` before any
push and the last pushed value after a non-empty sequence of pushes; the
non-`None` restriction applies only to the dataset-backed sinks (the
in-memory sinks take arbitrary values `ws ++ [w]`, `None` included); for
`ScalarDatasetSink` the store entry holds only the last pushed value. -/
theorem c7_get_last_sinks (key : String) (bc : Bool) (ds ds1 : Datasets)
    (w : PyVal) (ws : List PyVal) (v : PyVal) (vs : List PyVal)
    (hv : v ≠ PyVal.none) (hvs : ∀ x ∈ vs, x ≠ PyVal.none) :
    (LastValueSink.new.get_last = PyVal.none) ∧
    ((LastValueSink.new.pushMany (ws ++ [w])).get_last = w) ∧
    (ArraySink.new.get_last = PyVal.none) ∧
    ((ArraySink.new.pushMany (ws ++ [w])).get_last = w) ∧
    ((AppendingDatasetSink.build key bc).get_last = PyVal.none) ∧
    (∃ s2 ds2,
      AppendingDatasetSink.pushMany (AppendingDatasetSink.build key bc) ds
          (vs ++ [v]) = Except.ok (s2, ds2) ∧
      s2.get_last = v) ∧
    ((ScalarDatasetSink.build key bc).get_last ds1 =
      Except.ok (DsVal.val PyVal.none)) ∧
    (List.lookup key
        ((ScalarDatasetSink.build key bc).pushMany ds (vs ++ [v])).2 =
      Option.some (DsVal.val v)) ∧
    (((ScalarDatasetSink.build key bc).pushMany ds (vs ++ [v])).1.get_last
        ((ScalarDatasetSink.build key bc).pushMany ds (vs ++ [v])).2 =
      Except.ok (DsVal.val v)) := by
  have hsc := ScalarDatasetSink.pushMany_concat_store
    (ScalarDatasetSink.build key bc) ds vs v
  refine ⟨rfl, ?_, rfl, ?_, rfl, ?_, rfl, hsc.2, ?_⟩
  · rw [LastValueSink.pushMany_concat]
    rfl
  · have hd : (ArraySink.new.pushMany (ws ++ [w])).data = ws ++ [w] := by
      rw [ArraySink.pushMany_data]
      rfl
    unfold ArraySink.get_last
    rw [hd]
    cases ws with
    | nil => rfl
    | cons a l => exact getLastD_concat (a :: l) w PyVal.none
  · cases vs with
    | nil =>
        obtain ⟨ds2, h1, h2⟩ := ads_pushMany_build key bc ds v []
          hv (fun x hx => absurd hx (List.not_mem_nil x))
        exact ⟨_, ds2, h1, rfl⟩
    | cons a l =>
        have ha : a ≠ PyVal.none := hvs a (List.mem_cons_self a l)
        have hl : ∀ x ∈ (l ++ [v]), x ≠ PyVal.none := by
          intro x hx
          rcases List.mem_append.mp hx with h | h
          · exact hvs x (List.mem_cons_of_mem a h)
          · rw [List.mem_singleton.mp h]
            exact hv
        obtain ⟨ds2, h1, h2⟩ := ads_pushMany_build key bc ds a (l ++ [v]) ha hl
        refine ⟨⟨key, bc, (l ++ [v]).getLastD a⟩, ds2, ?_,
          getLastD_concat l v a⟩
        show AppendingDatasetSink.pushMany _ ds ((a :: l) ++ [v]) = _
        rw [List.cons_append]
        exact h1
  · unfold ScalarDatasetSink.get_last
    rw [hsc.1, if_pos rfl, ScalarDatasetSink.pushMany_key]
    unfold getDataset
    rw [hsc.2]

/-- C7 at concrete inputs: the in-memory sinks receive `1` then `None`
(arbitrary values are allowed there), the dataset-backed sinks receive `1`
then `2` under their non-`None` proviso; key `"k"`. -/
theorem c7_get_last_sinks_witness :
    (LastValueSink.new.get_last = PyVal.none) ∧
    ((LastValueSink.new.pushMany [PyVal.int 1, PyVal.none]).get_last =
      PyVal.none) ∧
    (ArraySink.new.get_last = PyVal.none) ∧
    ((ArraySink.new.pushMany [PyVal.int 1, PyVal.none]).get_last =
      PyVal.none) ∧
    ((AppendingDatasetSink.build "k" true).get_last = PyVal.none) ∧
    (∃ s2 ds2,
      AppendingDatasetSink.pushMany (AppendingDatasetSink.build "k" true) []
          [PyVal.int 1, PyVal.int 2] = Except.ok (s2, ds2) ∧
      s2.get_last = PyVal.int 2) ∧
    ((ScalarDatasetSink.build "k" true).get_last [] =
      Except.ok (DsVal.val PyVal.none)) ∧
    (List.lookup "k"
        ((ScalarDatasetSink.build "k" true).pushMany []
          [PyVal.int 1, PyVal.int 2]).2 =
      Option.some (DsVal.val (PyVal.int 2))) ∧
    (((ScalarDatasetSink.build "k" true).pushMany []
          [PyVal.int 1, PyVal.int 2]).1.get_last
        ((ScalarDatasetSink.build "k" true).pushMany []
          [PyVal.int 1, PyVal.int 2]).2 =
      Except.ok (DsVal.val (PyVal.int 2))) :=
  c7_get_last_sinks "k" true [] [] PyVal.none [PyVal.int 1] (PyVal.int 2)
    [PyVal.int 1] (by decide) (by decide)

/-- C9: the channel variants differ only in type string and coercion:
`FloatChannel` coerces `"3"` to `3.0` and `IntChannel` truncates `3.7` to
`3`, both failing with a `ValueError`/`TypeError` on non-numeric input;
`OpaqueChannel` passes every value through unchanged; `SubscanChannel`
returns the JSON-string serialisation unconditionally; the type strings are
`"float"`, `"int"`, `"opaque"`, `"subscan"`. -/
theorem c9_coercions (v : PyVal) (s : String) (b : ResultChannelData)
    (n : NumericData) :
    (Channel._coerce_to_type (Channel.floatChannel b n) (PyVal.str "3") =
      Except.ok (PyVal.float 3)) ∧
    (Channel._coerce_to_type (Channel.intChannel b n) (PyVal.float 3.7) =
      Except.ok (PyVal.int 3)) ∧
    (parseDecimalString s = Option.none →
      Channel._coerce_to_type (Channel.floatChannel b n) (PyVal.str s) =
        Except.error (PyError.valueError "could not convert string to float")) ∧
    (parseIntString s = Option.none →
      Channel._coerce_to_type (Channel.intChannel b n) (PyVal.str s) =
        Except.error (PyError.valueError "invalid literal for int")) ∧
    (Channel._coerce_to_type (Channel.floatChannel b n) PyVal.none =
      Except.error (PyError.typeError "float() argument must be a number")) ∧
    (Channel._coerce_to_type (Channel.intChannel b n) PyVal.none =
      Except.error (PyError.typeError "int() argument must be a number")) ∧
    (Channel._coerce_to_type (Channel.opaqueChannel b) v = Except.ok v) ∧
    (Channel._coerce_to_type (Channel.subscanChannel b) v =
      Except.ok (PyVal.str (dump_json v))) ∧
    (Channel._get_type_string (Channel.floatChannel b n) = "float") ∧
    (Channel._get_type_string (Channel.intChannel b n) = "int") ∧
    (Channel._get_type_string (Channel.opaqueChannel b) = "opaque") ∧
    (Channel._get_type_string (Channel.subscanChannel b) = "subscan") := by
  refine ⟨?_, ?_, ?_, ?_, rfl, rfl, rfl, rfl, rfl, rfl, rfl, rfl⟩
  · show Except.ok (PyVal.float ((3 : Nat) : ℚ)) =
      Except.ok (PyVal.float 3)
    have h3 : ((3 : Nat) : ℚ) = (3 : ℚ) := by norm_num
    rw [h3]
  · show Except.ok (PyVal.int (pyTrunc 3.7)) = Except.ok (PyVal.int 3)
    have ht : pyTrunc 3.7 = 3 := by
      unfold pyTrunc
      have hn : (3.7 : ℚ).num = 37 := by norm_num
      have hd : (3.7 : ℚ).den = 10 := by norm_num
      rw [hn, hd]
      rfl
    rw [ht]
  · intro h
    show pyFloat (PyVal.str s) = _
    simp only [pyFloat]
    rw [h]
  · intro h
    show pyInt (PyVal.str s) = _
    simp only [pyInt]
    rw [h]

/-- C9 at a concrete non-numeric input: `"abc"` fails to coerce on both
numeric channels. -/
theorem c9_coercions_witness :
    (parseDecimalString "abc" = Option.none ∧
      Channel._coerce_to_type (Channel.floatChannel sampleBase sampleNum)
          (PyVal.str "abc") =
        Except.error (PyError.valueError "could not convert string to float")) ∧
    (parseIntString "abc" = Option.none ∧
      Channel._coerce_to_type (Channel.intChannel sampleBase sampleNum)
          (PyVal.str "abc") =
        Except.error (PyError.valueError "invalid literal for int")) := by
  have h := c9_coercions (PyVal.int 0) "abc" sampleBase sampleNum
  exact ⟨⟨rfl, h.2.2.1 rfl⟩, ⟨rfl, h.2.2.2.1 rfl⟩⟩

end ResultChannels
